import Mathlib

/-
Verification of the sx-bet-basics repository: a shallow embedding, in Lean 4,
of the deterministic core of the order posting / filling / cancelling scripts
(orderPoster.js, orderFiller.js, orderCanceller.js, orderFetcher.js,
oddsUtils.js), together with theorems about that embedding.

Modelling conventions:
- JavaScript BigInt values are modelled as Int (or Nat where the source value
  is a byte or an unsigned quantity); BigInt division truncates toward zero
  and is modelled by Int.tdiv, BigInt remainder by Int.tmod.
- Decimal-string amounts and JavaScript numbers are modelled by Rat.  Where a
  claim depends only on facts that are invariant under binary64 rounding
  (control flow, ladder membership, small exactly-representable scenarios)
  the Rat model is used; claims whose content is the rounding behaviour of
  binary64 arithmetic itself are left outside this embedding.
- Random salts (crypto randomBytes) and the current timestamp are modelled as
  explicit parameters, and the external ECDSA typed-data signer is modelled
  as a function parameter: the claims treated here concern the payloads built
  around the signature, never the signature bytes themselves.
- keccak256 is implemented in full (bytes are Nat < 256, lanes are Nat < 2^64)
  and validated against the standard test vectors.
-/

set_option maxRecDepth 10000

namespace SXBet

/-! ## Keccak-256

The ethers helpers used by orderPoster.js (solidityPackedKeccak256) hash with
keccak-256 (original pad10*1 padding with domain byte 0x01, rate 136 bytes).
The implementation below operates on a 25-lane state, each lane a Nat kept
below 2^64. -/

/-- Rotate a 64-bit lane left by `n` bits. -/
def rotl64 (x n : Nat) : Nat :=
  ((x <<< n) ||| (x >>> (64 - n))) &&& (2 ^ 64 - 1)

/-- The 24 keccak-f[1600] round constants. -/
def keccakRC : List Nat :=
  [0x0000000000000001, 0x0000000000008082, 0x800000000000808a, 0x8000000080008000,
   0x000000000000808b, 0x0000000080000001, 0x8000000080008081, 0x8000000000008009,
   0x000000000000008a, 0x0000000000000088, 0x0000000080008009, 0x000000008000000a,
   0x000000008000808b, 0x800000000000008b, 0x8000000000008089, 0x8000000000008003,
   0x8000000000008002, 0x8000000000000080, 0x000000000000800a, 0x800000008000000a,
   0x8000000080008081, 0x8000000000008080, 0x0000000080000001, 0x8000000080008008]

/-- The 25 rotation offsets of the rho step, packed as consecutive 6-bit
digits of one constant: digit j holds the offset of the lane at position
x + 5y = j.  (The digits, least significant first, are 0, 1, 62, 28, 27,
then 36, 44, 6, 55, 20, then 3, 10, 43, 25, 39, then 41, 45, 15, 21, 8,
then 18, 2, 61, 56, 14; the keccak-256 test vectors below confirm the
table.) -/
def keccakRotPacked : Nat := 332055894658593304689340699888832964872888384

/-- Rotation offset of the rho step for the lane at position x + 5y = j. -/
def keccakRot (j : Nat) : Nat :=
  (keccakRotPacked >>> (6 * j)) &&& 63

/-- One keccak-f round (theta, rho, pi, chi, iota) on a 25-lane state. -/
def keccakRound (A : List Nat) (rc : Nat) : List Nat :=
  let C : Nat → Nat := fun x =>
    (A.getD x 0) ^^^ (A.getD (x + 5) 0) ^^^ (A.getD (x + 10) 0) ^^^
    (A.getD (x + 15) 0) ^^^ (A.getD (x + 20) 0)
  let D : Nat → Nat := fun x => C ((x + 4) % 5) ^^^ rotl64 (C ((x + 1) % 5)) 1
  let A1 := (List.range 25).map (fun j => (A.getD j 0) ^^^ D (j % 5))
  let B := (List.range 25).map (fun j =>
    let src := (3 * (j / 5) + j % 5) % 5 + 5 * (j % 5)
    rotl64 (A1.getD src 0) (keccakRot src))
  let A2 := (List.range 25).map (fun j =>
    let x := j % 5
    let y := j / 5
    (B.getD j 0) ^^^
      (((B.getD ((x + 1) % 5 + 5 * y) 0) ^^^ (2 ^ 64 - 1)) &&&
        (B.getD ((x + 2) % 5 + 5 * y) 0)))
  A2.set 0 ((A2.getD 0 0) ^^^ rc)

/-- The full keccak-f[1600] permutation: 24 rounds. -/
def keccakP (A : List Nat) : List Nat :=
  keccakRC.foldl keccakRound A

/-- Keccak pad10*1 padding with domain byte 0x01 to a multiple of the
rate (136 bytes). -/
def keccakPad (msg : List Nat) : List Nat :=
  let r := 136 - msg.length % 136
  if r = 1 then msg ++ [0x81]
  else msg ++ [0x01] ++ List.replicate (r - 2) 0 ++ [0x80]

/-- Load eight bytes as a little-endian 64-bit lane. -/
def loadLane (bs : List Nat) : Nat :=
  bs.foldr (fun b acc => acc * 256 + b) 0

/-- Absorb one 136-byte block into the state and permute. -/
def absorbBlock (st block : List Nat) : List Nat :=
  let lanes := (List.range 17).map (fun i => loadLane ((block.drop (8 * i)).take 8))
  keccakP ((List.range 25).map (fun j => (st.getD j 0) ^^^ (lanes.getD j 0)))

/-- keccak-256 of a byte sequence, as a list of 32 bytes.  Validated against
the standard vectors: the digest of the empty message is c5d24601... and the
digest of "abc" is 4e03657a... (checked below by `decide`). -/
def keccak256 (msg : List Nat) : List Nat :=
  let padded := keccakPad msg
  let nblocks := padded.length / 136
  let st := (List.range nblocks).foldl
    (fun st i => absorbBlock st ((padded.drop (136 * i)).take 136)) (List.replicate 25 0)
  (List.range 32).map (fun i => ((st.getD (i / 8) 0) >>> (8 * (i % 8))) &&& 255)

/-! ## Orders and the order hash (src/post-order/orderPoster.js) -/

/-- The nine order fields that postOrder hashes, in the order they are passed
to solidityPackedKeccak256.  Hashes and addresses are modelled by their
numeric value (bytes32 below 2^256, address below 2^160). -/
structure Order where
  marketHash : Nat
  baseToken : Nat
  totalBetSize : Nat
  percentageOdds : Nat
  expiry : Nat
  salt : Nat
  maker : Nat
  executor : Nat
  isMakerBettingOutcomeOne : Bool
deriving DecidableEq

/-- Big-endian byte sequence of width `w` for the value `x`. -/
def beBytes (w x : Nat) : List Nat :=
  (List.range w).map (fun i => (x >>> (8 * (w - 1 - i))) &&& 255)

/-- The byte sequence ethers.solidityPacked builds for the type list
(bytes32, address, uint256, uint256, uint256, uint256, address, address, bool)
and the nine order fields, exactly as orderPoster.js passes them: each value
tightly packed at the width of its type (32, 20, 32, 32, 32, 32, 20, 20 and
1 bytes; 221 bytes in total). -/
def solidityPackedOrder (o : Order) : List Nat :=
  beBytes 32 o.marketHash ++ beBytes 20 o.baseToken ++ beBytes 32 o.totalBetSize ++
  beBytes 32 o.percentageOdds ++ beBytes 32 o.expiry ++ beBytes 32 o.salt ++
  beBytes 20 o.maker ++ beBytes 20 o.executor ++
  [if o.isMakerBettingOutcomeOne then 1 else 0]

/-- Modelled from the spec wording: Solidity abi.encode of the same nine
fields, which pads every static value (addresses and the bool included) to a
full 32-byte word (288 bytes in total).  This is the encoding the claim names;
it is compared against the packed encoding the source actually uses. -/
def abiEncodeOrder (o : Order) : List Nat :=
  beBytes 32 o.marketHash ++ beBytes 32 o.baseToken ++ beBytes 32 o.totalBetSize ++
  beBytes 32 o.percentageOdds ++ beBytes 32 o.expiry ++ beBytes 32 o.salt ++
  beBytes 32 o.maker ++ beBytes 32 o.executor ++
  beBytes 32 (if o.isMakerBettingOutcomeOne then 1 else 0)

/-- The order hash computed by postOrder:
keccak256 of the solidityPacked encoding of the nine fields. -/
def orderHash (o : Order) : List Nat :=
  keccak256 (solidityPackedOrder o)

/-- Modelled from the spec wording: the hash the claim describes, keccak256
of abi.encode of the nine fields. -/
def orderHashAbiEncoded (o : Order) : List Nat :=
  keccak256 (abiEncodeOrder o)

/-- A concrete order used to evaluate the two hashes. -/
def sampleOrder : Order :=
  { marketHash := 1, baseToken := 2, totalBetSize := 3, percentageOdds := 4,
    expiry := 5, salt := 6, maker := 7, executor := 8,
    isMakerBettingOutcomeOne := true }

/-! ## Fixed-point fill arithmetic (src/fill-orders/orderFiller.js) -/

/-- Model of ethers.parseUnits: scale a decimal amount by 10 ^ decimals and
require the result to be an integer (parseUnits throws when the string has
more fractional digits than `decimals`; that failure is `none`).  The
integrality test is phrased through the reduced denominator: the scaled
value is an integer exactly when the denominator divides 10 ^ decimals, and
then it equals num * (10 ^ decimals / den) (theorem parseUnits_scales). -/
def parseUnits (value : ℚ) (decimals : Nat) : Option ℤ :=
  if 10 ^ decimals % value.den = 0 then
    some (value.num * ((10 ^ decimals / value.den : ℕ) : ℤ))
  else none

/-- calculateFillAmount from orderFiller.js: scale the taker stake to USDC
smallest units (6 decimals), then compute
takerBetAmount * percentageOdds / (10^20 - percentageOdds) in BigInt
arithmetic.  BigInt division truncates toward zero (Int.tdiv); dividing by a
zero denominator throws, modelled as `none`.  The function itself performs no
range check on percentageOdds. -/
def calculateFillAmount (takerBetAmount : ℚ) (percentageOdds : ℤ) : Option ℤ :=
  match parseUnits takerBetAmount 6 with
  | none => none
  | some takerBetAmountBN =>
    let base : ℤ := 10 ^ 20
    let denominator := base - percentageOdds
    if denominator = 0 then none
    else some (Int.tdiv (takerBetAmountBN * percentageOdds) denominator)

/-! ## Fill payload construction (src/fill-orders/orderFiller.js)

createFillOrderPayload builds the EIP-712 message (primary type Details) and
fillOrder wraps it with a signature into the API submission payload.  The
random fillSalt is a parameter; the typed-data signer is a function
parameter whose output bytes are never inspected. -/

/-- An order as returned by the SX Bet orders API: the nine hashed fields
plus the maker signature and the server-computed order hash. -/
structure SignedOrder extends Order where
  signature : String
  orderHash : Nat
deriving DecidableEq

/-- The zero address constant (ethers.ZeroAddress). -/
def zeroAddress : String := "0x0000000000000000000000000000000000000000"

/-- The zero hash constant (ethers.ZeroHash). -/
def zeroHash : String :=
  "0x0000000000000000000000000000000000000000000000000000000000000000"

/-- The hardcoded taker address in fillOrder. -/
def takerAddress : String := "0xa6fa134f76496300419E6dbee487239F09d247aE"

/-- The EIP-712 domain of the fill schema (constants from orderFiller.js). -/
structure FillDomain where
  name : String
  version : String
  chainId : Nat
  verifyingContract : String
deriving DecidableEq

/-- The fill domain built by createFillOrderPayload. -/
def fillDomain : FillDomain :=
  { name := "SX Bet", version := "6.0", chainId := 4162,
    verifyingContract := "0x845a2Da2D70fEDe8474b1C8518200798c60aC364" }

/-- The nested fills object of the Details message. -/
structure FillObject where
  makerSigs : List String
  orders : List Order
  takerAmounts : List String
  fillSalt : String
  beneficiary : String
  beneficiaryType : Nat
  cashOutTarget : String
deriving DecidableEq

/-- The Details message of the fill schema: six outer string fields plus the
nested fills object. -/
structure FillMessage where
  action : String
  market : String
  betting : String
  stake : String
  odds : String
  returning : String
  fills : FillObject
deriving DecidableEq

/-- createFillOrderPayload from orderFiller.js: the message part of the
EIP-712 payload (the domain is the constant `fillDomain`; the static type
tables are fixed text).  The per-order map copies the nine hashed fields
(the source renders the numeric ones with toString, modelled here by keeping
their numeric values); makerSigs collects each order signature.  The random
fillSalt drawn from randomBytes is the `fillSalt` parameter. -/
def createFillOrderPayload (orders : List SignedOrder) (takerAmounts : List String)
    (fillSalt : String) : FillMessage :=
  { action := "N/A", market := "N/A", betting := "N/A",
    stake := "N/A", odds := "N/A", returning := "N/A",
    fills :=
      { makerSigs := orders.map (fun o => o.signature)
        orders := orders.map (fun o => o.toOrder)
        takerAmounts := takerAmounts
        fillSalt := fillSalt
        beneficiary := zeroAddress
        beneficiaryType := 0
        cashOutTarget := zeroHash } }

/-- The JSON payload fillOrder posts to /orders/fill. -/
structure ApiFillPayload where
  orderHashes : List Nat
  takerAmounts : List String
  taker : String
  takerSig : String
  fillSalt : String
  action : String
  market : String
  betting : String
  stake : String
  odds : String
  returning : String
deriving DecidableEq

/-- The API payload object literal inside fillOrder. -/
def fillOrderApiPayload (orders : List SignedOrder) (takerAmounts : List String)
    (takerSig fillSalt : String) : ApiFillPayload :=
  { orderHashes := orders.map (fun o => o.orderHash)
    takerAmounts := takerAmounts
    taker := takerAddress
    takerSig := takerSig
    fillSalt := fillSalt
    action := "N/A", market := "N/A", betting := "N/A",
    stake := "N/A", odds := "N/A", returning := "N/A" }

/-- The failures fillOrder can raise before contacting the network.  The
source only ever raises the missing-key error; the length-mismatch
constructor exists so the claimed validation behaviour is statable. -/
inductive FillOrderError where
  | missingPrivateKey
  | lengthMismatch
deriving DecidableEq

/-- fillOrder from orderFiller.js, up to the network call: check the private
key, build the EIP-712 message, sign it (the external signer is the
`signTypedData` parameter), and assemble the API payload.  No validation of
the orders / takerAmounts arrays is performed anywhere on this path. -/
def fillOrder (privateKey : Option String)
    (signTypedData : String → FillMessage → String) (fillSalt : String)
    (orders : List SignedOrder) (takerAmounts : List String) :
    Except FillOrderError ApiFillPayload :=
  match privateKey with
  | none => .error .missingPrivateKey
  | some key =>
    let message := createFillOrderPayload orders takerAmounts fillSalt
    let signature := signTypedData key message
    .ok (fillOrderApiPayload orders takerAmounts signature fillSalt)

/-! ## Cancellation payloads (src/unnamed/part_004, orderCanceller.js) -/

/-- The EIP-712 domain of the cancel schema: its salt field is the fresh
per-request salt, not a contract constant. -/
structure CancelDomain where
  name : String
  version : String
  chainId : Nat
  salt : String
deriving DecidableEq

/-- The Details message of the cancel schema. -/
structure CancelMessage where
  orderHashes : List String
  timestamp : Nat
deriving DecidableEq

/-- getCancelOrderEIP712Payload from orderCanceller.js: domain and message
(the static type tables are fixed text). -/
def getCancelOrderEIP712Payload (orderHashes : List String) (salt : String)
    (timestamp : Nat) : CancelDomain × CancelMessage :=
  ({ name := "CancelOrderV2SportX", version := "1.0", chainId := 4162, salt := salt },
   { orderHashes := orderHashes, timestamp := timestamp })

/-- The maker address constant of orderCanceller.js. -/
def cancelMakerAddress : String := "0xa6fa134f76496300419E6dbee487239F09d247aE"

/-- The JSON payload cancelOrders posts to /orders/cancel/v2. -/
structure ApiCancelPayload where
  signature : String
  orderHashes : List String
  salt : String
  maker : String
  timestamp : Nat
deriving DecidableEq

/-- The failures cancelOrders can raise before contacting the network.  The
source only ever raises the missing-key error; the empty-input constructor
exists so the claimed validation behaviour is statable. -/
inductive CancelOrdersError where
  | missingPrivateKey
  | emptyOrderHashes
deriving DecidableEq

/-- cancelOrders from orderCanceller.js, up to the network call: check the
private key, draw a salt (parameter), take the current timestamp (parameter),
build the cancel payload, sign it (the external signer is the `signTypedData`
parameter) and assemble the API payload.  The orderHashes list is passed
through with no validation at all, empty or not. -/
def cancelOrders (privateKey : Option String)
    (signTypedData : String → CancelDomain × CancelMessage → String)
    (salt : String) (timestamp : Nat) (orderHashes : List String) :
    Except CancelOrdersError ApiCancelPayload :=
  match privateKey with
  | none => .error .missingPrivateKey
  | some key =>
    let payload := getCancelOrderEIP712Payload orderHashes salt timestamp
    let signature := signTypedData key payload
    .ok { signature := signature, orderHashes := orderHashes, salt := salt,
          maker := cancelMakerAddress, timestamp := timestamp }

/-! ## Odds ladder (src/unnamed/part_003, oddsUtils.js)

The JavaScript number arithmetic of roundToNearestStep is modelled over Rat;
Math.round x is the integer floor of x + 1/2 (round half toward positive
infinity, which on the positive inputs treated here is round half away from
zero).  The final parseUnits(roundedImplied.toString(), 20) step multiplies
the rounded implied odds, a multiple of 1/400 with a four-digit terminating
decimal representation, by 10 ^ 20. -/

/-- The ladder step: 0.25 percent. -/
def ODDS_LADDER_STEP_SIZE : Nat := 25

/-- checkOddsLadderValid from oddsUtils.js: exact BigInt remainder of the
odds by the step size 10^16 * 25 (BigInt % truncates, Int.tmod). -/
def checkOddsLadderValid (odds : ℤ) : Bool :=
  Int.tmod odds ((10 : ℤ) ^ 16 * (ODDS_LADDER_STEP_SIZE : ℤ)) == 0

/-- roundToNearestStep from oddsUtils.js: convert implied odds to a
percentage, round to the nearest multiple of 0.25, convert back and scale to
the 10^20 fixed-point API format. -/
def roundToNearestStep (impliedOdds : ℚ) : ℤ :=
  let percentage := impliedOdds * 100
  let roundedPercentage : ℚ := (⌊percentage / (25 / 100) + 1 / 2⌋ : ℤ) * (25 / 100)
  let roundedImplied := roundedPercentage / 100
  (roundedImplied * 10 ^ 20).num

/-- impliedToDecimalOdds from oddsUtils.js: the bare quotient 1/impliedOdds
with no domain check.  JavaScript division never throws; at 0 it yields the
non-finite value Infinity, modelled as `none`, and at every other input the
finite quotient, modelled as `some`. -/
def impliedToDecimalOdds (impliedOdds : ℚ) : Option ℚ :=
  if impliedOdds = 0 then none else some (1 / impliedOdds)

/-! ## Order fetching utilities (src/fetch-orders/orderFetcher.js)

The utility functions read decimal strings with parseFloat and compute with
JavaScript numbers; they are modelled over Rat (exact arithmetic). -/

/-- toNominalAmount from orderFetcher.js: divide by 10 ^ decimals
(6 for USDC). -/
def toNominalAmount (ethereumAmount : ℚ) (decimals : Nat := 6) : ℚ :=
  ethereumAmount / 10 ^ decimals

/-- toImpliedOdds from orderFetcher.js: divide by 10 ^ 20. -/
def toImpliedOdds (percentageOdds : ℚ) : ℚ :=
  percentageOdds / 10 ^ 20

/-- calculateTakerImpliedOdds from orderFetcher.js: the complement of the
maker implied odds. -/
def calculateTakerImpliedOdds (percentageOdds : ℚ) : ℚ :=
  1 - toImpliedOdds percentageOdds

/-- toDecimalOdds from orderFetcher.js: the bare quotient 1/impliedOdds with
no domain check, exactly as impliedToDecimalOdds in oddsUtils.js. -/
def toDecimalOdds (impliedOdds : ℚ) : Option ℚ :=
  if impliedOdds = 0 then none else some (1 / impliedOdds)

/-- calculateRemainingTakerSpace from orderFetcher.js: zero once the maker
side is exhausted, otherwise remainingMaker * 10^20 / percentageOdds -
remainingMaker.  The source computes this with JavaScript numbers; the model
is its exact-rational idealization. -/
def calculateRemainingTakerSpace (totalBetSize fillAmount percentageOdds : ℚ) : ℚ :=
  let remainingMakerAmount := totalBetSize - fillAmount
  if remainingMakerAmount ≤ 0 then 0
  else remainingMakerAmount * 10 ^ 20 / percentageOdds - remainingMakerAmount

/-- An order as consumed by groupOrdersByOutcome and formatOrderForTaker:
the fields those functions read.  Decimal-string amounts are modelled by
their rational values. -/
structure FetchedOrder where
  orderHash : Nat
  totalBetSize : ℚ
  fillAmount : ℚ
  percentageOdds : ℚ
  isMakerBettingOutcomeOne : Bool
deriving DecidableEq

/-- groupOrdersByOutcome from orderFetcher.js: a single reduce pass that
appends each order to the group of the outcome a taker would bet, key 2 when
the maker bets outcome one and key 1 otherwise.  The JavaScript object with
keys 1 and 2 is modelled as a pair (group of key 1, group of key 2); a key
absent from the object corresponds to an empty list. -/
def groupOrdersByOutcome (orders : List FetchedOrder) :
    List FetchedOrder × List FetchedOrder :=
  orders.foldl
    (fun grouped o =>
      if o.isMakerBettingOutcomeOne then (grouped.1, grouped.2 ++ [o])
      else (grouped.1 ++ [o], grouped.2))
    ([], [])

/-- The taker-perspective view formatOrderForTaker returns.  The fields that
only render values for display (toFixed strings, the locale-formatted
createdAt date) are presentation glue and are not modelled; the numeric
content behind them is. -/
structure TakerOrderView where
  orderHash : Nat
  outcome : Nat
  impliedOdds : ℚ
  decimalOdds : Option ℚ
  availableBetSize : ℚ
deriving DecidableEq

/-- formatOrderForTaker from orderFetcher.js: label the outcome opposite to
the maker side (2 when the maker bets outcome one, else 1), compute the taker
implied and decimal odds and the remaining taker space in nominal units. -/
def formatOrderForTaker (order : FetchedOrder) : TakerOrderView :=
  let takerImpliedOdds := calculateTakerImpliedOdds order.percentageOdds
  let takerDecimalOdds := toDecimalOdds takerImpliedOdds
  let remainingTakerSpaceEth :=
    calculateRemainingTakerSpace order.totalBetSize order.fillAmount order.percentageOdds
  { orderHash := order.orderHash
    outcome := if order.isMakerBettingOutcomeOne then 2 else 1
    impliedOdds := takerImpliedOdds
    decimalOdds := takerDecimalOdds
    availableBetSize := toNominalAmount remainingTakerSpaceEth }

/-! ## Helper lemmas -/

/-- keccak-256 of the empty message matches the standard test vector. -/
theorem keccak256_nil_vector :
    keccak256 [] =
      [0xc5, 0xd2, 0x46, 0x01, 0x86, 0xf7, 0x23, 0x3c, 0x92, 0x7e, 0x7d, 0xb2,
       0xdc, 0xc7, 0x03, 0xc0, 0xe5, 0x00, 0xb6, 0x53, 0xca, 0x82, 0x27, 0x3b,
       0x7b, 0xfa, 0xd8, 0x04, 0x5d, 0x85, 0xa4, 0x70] := by decide

/-- keccak-256 of the three bytes of "abc" matches the standard test
vector. -/
theorem keccak256_abc_vector :
    keccak256 [0x61, 0x62, 0x63] =
      [0x4e, 0x03, 0x65, 0x7a, 0xea, 0x45, 0xa9, 0x4f, 0xc7, 0xd4, 0x7b, 0xa8,
       0x26, 0xc8, 0xd6, 0x67, 0xc0, 0xd1, 0xe6, 0xe3, 0x3a, 0x64, 0xa0, 0x36,
       0xec, 0x44, 0xf5, 0x8f, 0xa1, 0x2d, 0x6c, 0x45] := by decide

/-- Closed form of roundToNearestStep: the rounded step index
floor(impliedOdds * 400 + 1/2) times the ladder step 25 * 10^16. -/
theorem roundToNearestStep_eq (q : ℚ) :
    roundToNearestStep q = ⌊q * 400 + 1 / 2⌋ * (25 * 10 ^ 16) := by
  simp only [roundToNearestStep]
  have h1 : q * 100 / (25 / 100) + 1 / 2 = q * 400 + 1 / 2 := by ring
  rw [h1]
  have h2 : ((⌊q * 400 + 1 / 2⌋ : ℚ) * (25 / 100) / 100) * 10 ^ 20 =
      ((⌊q * 400 + 1 / 2⌋ * (25 * 10 ^ 16) : ℤ) : ℚ) := by
    push_cast
    ring
  rw [h2, Rat.num_intCast]

/-- A successful parseUnits result is exactly the input scaled by
10 ^ decimals. -/
theorem parseUnits_scales (q : ℚ) (d : Nat) (m : ℤ) (hp : parseUnits q d = some m) :
    (m : ℚ) = q * 10 ^ d := by
  unfold parseUnits at hp
  split at hp
  case isFalse => exact absurd hp (by simp)
  case isTrue h =>
    have hm : q.num * ((10 ^ d / q.den : ℕ) : ℤ) = m := by
      simpa using hp
    subst hm
    have hdvd : q.den ∣ 10 ^ d := Nat.dvd_iff_mod_eq_zero.mpr h
    have hden : ((q.den : ℚ)) ≠ 0 := by
      exact_mod_cast q.den_nz
    have hcast : ((10 ^ d / q.den : ℕ) : ℚ) = (10 : ℚ) ^ d / (q.den : ℚ) := by
      rw [Nat.cast_div hdvd hden, Nat.cast_pow, Nat.cast_ofNat]
    rw [Int.cast_mul, Int.cast_natCast, hcast]
    rw [show (q.num : ℚ) * ((10 : ℚ) ^ d / (q.den : ℚ)) =
      ((q.num : ℚ) / (q.den : ℚ)) * 10 ^ d by ring]
    rw [Rat.num_div_den]

/-- BigInt remainder agrees with the mathematical remainder on the zero test. -/
theorem tmod_eq_zero_iff_emod_eq_zero (a b : ℤ) : Int.tmod a b = 0 ↔ a % b = 0 := by
  rw [← Int.dvd_iff_tmod_eq_zero, Int.dvd_iff_emod_eq_zero]

/-- The two components of groupOrdersByOutcome are the filters of the input
by taker outcome. -/
theorem groupOrdersByOutcome_eq (orders : List FetchedOrder) :
    groupOrdersByOutcome orders =
      (orders.filter (fun o => !o.isMakerBettingOutcomeOne),
       orders.filter (fun o => o.isMakerBettingOutcomeOne)) := by
  suffices h : ∀ g : List FetchedOrder × List FetchedOrder,
      orders.foldl
        (fun grouped o =>
          if o.isMakerBettingOutcomeOne then (grouped.1, grouped.2 ++ [o])
          else (grouped.1 ++ [o], grouped.2)) g =
      (g.1 ++ orders.filter (fun o => !o.isMakerBettingOutcomeOne),
       g.2 ++ orders.filter (fun o => o.isMakerBettingOutcomeOne)) by
    simpa [groupOrdersByOutcome] using h ([], [])
  induction orders with
  | nil => intro g; simp
  | cons a t ih =>
    intro g
    by_cases hflag : a.isMakerBettingOutcomeOne <;>
      simp [hflag, List.filter_cons, ih, List.append_assoc]

/-! ## Claim theorems -/

/-- C1 (amended): postOrder computes the order hash as keccak256 of the
tightly packed (solidityPacked) encoding of the nine fields marketHash,
baseToken, totalBetSize, percentageOdds, expiry, salt, maker, executor,
isMakerBettingOutcomeOne, in exactly that order and at the packed widths of
their solidity types (bytes32, address, uint256, uint256, uint256, uint256,
address, address, bool) — not of their abi.encode word-padded encoding — and
the hash is a pure function of the nine fields: identical field sets always
yield an identical hash. -/
theorem orderHash_packed_encoding_deterministic :
    (∀ o : Order,
        orderHash o =
          keccak256
            (beBytes 32 o.marketHash ++ beBytes 20 o.baseToken ++
             beBytes 32 o.totalBetSize ++ beBytes 32 o.percentageOdds ++
             beBytes 32 o.expiry ++ beBytes 32 o.salt ++ beBytes 20 o.maker ++
             beBytes 20 o.executor ++ [if o.isMakerBettingOutcomeOne then 1 else 0])) ∧
    (∀ o₁ o₂ : Order,
        o₁.marketHash = o₂.marketHash → o₁.baseToken = o₂.baseToken →
        o₁.totalBetSize = o₂.totalBetSize → o₁.percentageOdds = o₂.percentageOdds →
        o₁.expiry = o₂.expiry → o₁.salt = o₂.salt → o₁.maker = o₂.maker →
        o₁.executor = o₂.executor →
        o₁.isMakerBettingOutcomeOne = o₂.isMakerBettingOutcomeOne →
        orderHash o₁ = orderHash o₂) := by
  refine ⟨fun o => rfl, fun o₁ o₂ h1 h2 h3 h4 h5 h6 h7 h8 h9 => ?_⟩
  have h : o₁ = o₂ := by
    cases o₁
    cases o₂
    simp_all
  rw [h]

/-- Witness for C1: the packed-encoding hash theorem applied to a concrete
pair of orders with identical fields. -/
theorem orderHash_packed_encoding_deterministic_witness :
    orderHash
        { marketHash := 1, baseToken := 2, totalBetSize := 3, percentageOdds := 4,
          expiry := 5, salt := 6, maker := 7, executor := 8,
          isMakerBettingOutcomeOne := true } =
      orderHash
        { marketHash := 1, baseToken := 2, totalBetSize := 3, percentageOdds := 4,
          expiry := 5, salt := 6, maker := 7, executor := 8,
          isMakerBettingOutcomeOne := true } :=
  orderHash_packed_encoding_deterministic.2 _ _ rfl rfl rfl rfl rfl rfl rfl rfl rfl

/-- C1 counterexample: at a concrete order, the hash postOrder computes
(keccak256 of the tightly packed solidityPacked encoding) is not
keccak256 of the abi.encode word-padded encoding of the same nine fields;
the two preimages do not even share a length (221 bytes packed against 288
bytes word-padded). -/
theorem orderHash_not_abi_encode_hash :
    orderHash sampleOrder ≠ orderHashAbiEncoded sampleOrder ∧
    (solidityPackedOrder sampleOrder).length = 221 ∧
    (abiEncodeOrder sampleOrder).length = 288 :=
  ⟨by decide, by decide, by decide⟩

/-- C2 (confirmed): for every taker stake whose 6-decimal scaling is an
integer m and every percentageOdds strictly between 0 and 10^20,
calculateFillAmount returns m * percentageOdds / (10^20 - percentageOdds)
with BigInt division truncating toward zero; a stake of 10 currency units at
percentageOdds 50 * 10^18 yields 10 * 10^6 smallest units, i.e. 10 currency
units. -/
theorem calculateFillAmount_formula :
    (∀ (takerStake : ℚ) (m odds : ℤ),
        parseUnits takerStake 6 = some m → 0 < odds → odds < 10 ^ 20 →
        (m : ℚ) = takerStake * 10 ^ 6 ∧
        calculateFillAmount takerStake odds =
          some (Int.tdiv (m * odds) (10 ^ 20 - odds))) ∧
    calculateFillAmount 10 (50 * 10 ^ 18) = some (10 * 10 ^ 6) := by
  constructor
  · intro s m odds hparse hpos hlt
    refine ⟨parseUnits_scales s 6 m hparse, ?_⟩
    simp only [calculateFillAmount, hparse]
    rw [if_neg (by omega)]
  · decide

/-- Witness for C2: the fill formula applied at a 10-unit stake and 50
percent odds. -/
theorem calculateFillAmount_formula_witness :
    parseUnits 10 6 = some 10000000 ∧ (0 : ℤ) < 50 * 10 ^ 18 ∧
    (50 * 10 ^ 18 : ℤ) < 10 ^ 20 ∧
    (((10000000 : ℤ) : ℚ) = 10 * 10 ^ 6 ∧
     calculateFillAmount 10 (50 * 10 ^ 18) =
       some (Int.tdiv (10000000 * (50 * 10 ^ 18)) (10 ^ 20 - 50 * 10 ^ 18))) :=
  ⟨by decide, by decide, by decide,
   calculateFillAmount_formula.1 10 10000000 (50 * 10 ^ 18)
     (by decide) (by decide) (by decide)⟩

/-- In the exact-rational idealization, calculateRemainingTakerSpace returns
0 once the maker side is exhausted and otherwise the formula value; with
totalBetSize 100, fillAmount 40 and percentageOdds 25 * 10^18 it returns
180.  (The source computes with binary64 numbers, so its exact return values
for arbitrary inputs are a property of IEEE-754 rounding, not of this
model.) -/
theorem calculateRemainingTakerSpace_model :
    (∀ total fill odds : ℚ, total - fill ≤ 0 →
        calculateRemainingTakerSpace total fill odds = 0) ∧
    (∀ total fill odds : ℚ, ¬ total - fill ≤ 0 →
        calculateRemainingTakerSpace total fill odds =
          (total - fill) * 10 ^ 20 / odds - (total - fill)) ∧
    calculateRemainingTakerSpace 100 40 (25 * 10 ^ 18) = 180 := by
  refine ⟨fun total fill odds h => ?_, fun total fill odds h => ?_, ?_⟩
  · simp [calculateRemainingTakerSpace, h]
  · simp [calculateRemainingTakerSpace, h]
  · norm_num [calculateRemainingTakerSpace]

/-- C4 (confirmed): the fill payload construction sets the six outer Details
fields to the placeholder "N/A" both in the signed EIP-712 message and in
the API submission payload, and sets beneficiary to the zero address,
beneficiaryType to 0 and cashOutTarget to the zero hash inside the signed
fills object, for every input. -/
theorem fill_payload_placeholders :
    ∀ (orders : List SignedOrder) (takerAmounts : List String)
      (fillSalt takerSig : String),
      ((createFillOrderPayload orders takerAmounts fillSalt).action = "N/A" ∧
       (createFillOrderPayload orders takerAmounts fillSalt).market = "N/A" ∧
       (createFillOrderPayload orders takerAmounts fillSalt).betting = "N/A" ∧
       (createFillOrderPayload orders takerAmounts fillSalt).stake = "N/A" ∧
       (createFillOrderPayload orders takerAmounts fillSalt).odds = "N/A" ∧
       (createFillOrderPayload orders takerAmounts fillSalt).returning = "N/A") ∧
      ((createFillOrderPayload orders takerAmounts fillSalt).fills.beneficiary =
          zeroAddress ∧
       (createFillOrderPayload orders takerAmounts fillSalt).fills.beneficiaryType = 0 ∧
       (createFillOrderPayload orders takerAmounts fillSalt).fills.cashOutTarget =
          zeroHash) ∧
      ((fillOrderApiPayload orders takerAmounts takerSig fillSalt).action = "N/A" ∧
       (fillOrderApiPayload orders takerAmounts takerSig fillSalt).market = "N/A" ∧
       (fillOrderApiPayload orders takerAmounts takerSig fillSalt).betting = "N/A" ∧
       (fillOrderApiPayload orders takerAmounts takerSig fillSalt).stake = "N/A" ∧
       (fillOrderApiPayload orders takerAmounts takerSig fillSalt).odds = "N/A" ∧
       (fillOrderApiPayload orders takerAmounts takerSig fillSalt).returning = "N/A") :=
  fun _ _ _ _ =>
    ⟨⟨rfl, rfl, rfl, rfl, rfl, rfl⟩, ⟨rfl, rfl, rfl⟩, ⟨rfl, rfl, rfl, rfl, rfl, rfl⟩⟩

/-- C5 counterexample: with the empty orderHashes list (and a key, a salt, a
timestamp and a signer available) cancelOrders does not fail validation; it
signs and assembles a payload whose orderHashes array is empty. -/
theorem cancelOrders_accepts_empty_orderHashes :
    cancelOrders (some "0xabc") (fun _ _ => "0xsig") "0xsalt" 1700000000 [] =
      .ok { signature := "0xsig", orderHashes := [], salt := "0xsalt",
            maker := cancelMakerAddress, timestamp := 1700000000 } := rfl

/-- C5 (amended): cancelOrders performs no validation of orderHashes at all:
for every list, the empty one included, it signs the cancel payload and
returns the API payload; the only failure on this path is a missing private
key, checked before signing. -/
theorem cancelOrders_no_validation :
    ∀ (key salt : String) (signer : String → CancelDomain × CancelMessage → String)
      (timestamp : Nat) (orderHashes : List String),
      cancelOrders (some key) signer salt timestamp orderHashes =
        .ok { signature := signer key (getCancelOrderEIP712Payload orderHashes salt timestamp),
              orderHashes := orderHashes, salt := salt, maker := cancelMakerAddress,
              timestamp := timestamp } ∧
      cancelOrders none signer salt timestamp orderHashes = .error .missingPrivateKey :=
  fun _ _ _ _ _ => ⟨rfl, rfl⟩

/-- C6 counterexample: with mismatched array lengths (no orders, one taker
amount) fillOrder does not fail validation: given a key it signs and returns
the API payload. -/
theorem fillOrder_accepts_mismatched_arrays :
    fillOrder (some "0xabc") (fun _ _ => "0xsig") "1" ([] : List SignedOrder)
        ["5000000"] =
      .ok (fillOrderApiPayload [] ["5000000"] "0xsig" "1") ∧
    ([] : List SignedOrder).length ≠ ["5000000"].length :=
  ⟨rfl, by decide⟩

/-- C6 (amended): fillOrder performs no validation of the orders and
takerAmounts arrays: for every pair of arrays, mismatched or empty included,
given a private key it builds the EIP-712 message, signs it and returns the
API payload; the only failure on this path is a missing private key, checked
before signing. -/
theorem fillOrder_no_validation :
    ∀ (key fillSalt : String) (signer : String → FillMessage → String)
      (orders : List SignedOrder) (takerAmounts : List String),
      fillOrder (some key) signer fillSalt orders takerAmounts =
        .ok (fillOrderApiPayload orders takerAmounts
              (signer key (createFillOrderPayload orders takerAmounts fillSalt)) fillSalt) ∧
      fillOrder none signer fillSalt orders takerAmounts = .error .missingPrivateKey :=
  fun _ _ _ _ _ => ⟨rfl, rfl⟩

/-- C7 (confirmed): for every impliedOdds in (0, 1) the odds produced by
roundToNearestStep satisfy checkOddsLadderValid; checkOddsLadderValid holds
exactly when the odds are divisible by 10^16 * 25 in exact integer
arithmetic; 0.5025 is returned unchanged as 50.25 percent (5025 * 10^16 in
the 10^20 fixed-point format) and 0.50333 snaps to the same 50.25 percent
rung. -/
theorem snapped_odds_always_on_ladder :
    (∀ q : ℚ, 0 < q → q < 1 → checkOddsLadderValid (roundToNearestStep q) = true) ∧
    roundToNearestStep (5025 / 10000) = 5025 * 10 ^ 16 ∧
    roundToNearestStep (50333 / 100000) = 5025 * 10 ^ 16 ∧
    (∀ odds : ℤ, checkOddsLadderValid odds = true ↔ odds % (10 ^ 16 * 25) = 0) := by
  refine ⟨fun q _ _ => ?_, by with_unfolding_all decide, by with_unfolding_all decide,
    fun odds => ?_⟩
  · rw [roundToNearestStep_eq]
    simp only [checkOddsLadderValid, ODDS_LADDER_STEP_SIZE, beq_iff_eq, Nat.cast_ofNat]
    have h : ((10 : ℤ) ^ 16 * 25) = 25 * 10 ^ 16 := by ring
    rw [h]
    exact Int.mul_tmod_left _ _
  · simp only [checkOddsLadderValid, ODDS_LADDER_STEP_SIZE, beq_iff_eq, Nat.cast_ofNat]
    exact tmod_eq_zero_iff_emod_eq_zero odds _

/-- Witness for C7: the ladder theorem applied at implied odds 1/2. -/
theorem snapped_odds_always_on_ladder_witness :
    (0 : ℚ) < 1 / 2 ∧ (1 / 2 : ℚ) < 1 ∧
    checkOddsLadderValid (roundToNearestStep (1 / 2)) = true :=
  ⟨by with_unfolding_all decide, by with_unfolding_all decide,
   snapped_odds_always_on_ladder.1 (1 / 2) (by with_unfolding_all decide)
     (by with_unfolding_all decide)⟩

/-- C8 counterexample: at the non-positive implied odds -1/2 toDecimalOdds
does not fail; it returns the value -2. -/
theorem toDecimalOdds_returns_value_for_negative_input :
    toDecimalOdds (-(1 / 2)) = some (-2) ∧ (-(1 / 2) : ℚ) ≤ 0 := by
  constructor
  · with_unfolding_all decide
  · with_unfolding_all decide

/-- C8 (amended): toDecimalOdds (and its twin impliedToDecimalOdds) computes
the bare reciprocal 1 / impliedOdds with no domain check and never raises:
every nonzero input, non-positive inputs included, yields the finite value
1 / impliedOdds, and input 0 yields the non-finite Infinity rather than an
error. -/
theorem toDecimalOdds_unchecked_reciprocal :
    ∀ q : ℚ, q ≠ 0 →
      toDecimalOdds q = some (1 / q) ∧ impliedToDecimalOdds q = some (1 / q) := by
  intro q hq
  constructor <;> simp [toDecimalOdds, impliedToDecimalOdds, hq]

/-- Witness for C8: the reciprocal theorem applied at implied odds 2. -/
theorem toDecimalOdds_unchecked_reciprocal_witness :
    (2 : ℚ) ≠ 0 ∧
    (toDecimalOdds 2 = some (1 / 2) ∧ impliedToDecimalOdds 2 = some (1 / 2)) :=
  ⟨by with_unfolding_all decide,
   toDecimalOdds_unchecked_reciprocal 2 (by with_unfolding_all decide)⟩

/-- C9 (confirmed): under the precondition 0 < percentageOdds < 10^20 the
denominator 10^20 - percentageOdds of calculateFillAmount is strictly
positive and the division succeeds, while at percentageOdds = 10^20 exactly
the BigInt division by zero throws (modelled as none); calculateFillAmount
itself never checks the precondition. -/
theorem calculateFillAmount_denominator_safety :
    (∀ odds : ℤ, 0 < odds → odds < 10 ^ 20 → (0 : ℤ) < 10 ^ 20 - odds) ∧
    (∀ (takerStake : ℚ) (m odds : ℤ),
        parseUnits takerStake 6 = some m → 0 < odds → odds < 10 ^ 20 →
        (calculateFillAmount takerStake odds).isSome = true) ∧
    (∀ takerStake : ℚ, calculateFillAmount takerStake (10 ^ 20) = none) := by
  refine ⟨fun odds h1 h2 => by omega, fun s m odds hp h1 h2 => ?_, fun s => ?_⟩
  · simp only [calculateFillAmount, hp]
    rw [if_neg (by omega)]
    rfl
  · simp only [calculateFillAmount]
    cases hp : parseUnits s 6 with
    | none => rfl
    | some m => simp

/-- Witness for C9: the denominator-safety theorem applied at 50 percent
odds and at the boundary 10^20. -/
theorem calculateFillAmount_denominator_safety_witness :
    ((0 : ℤ) < 10 ^ 20 - 50 * 10 ^ 18) ∧
    (calculateFillAmount 10 (50 * 10 ^ 18)).isSome = true ∧
    calculateFillAmount 10 (10 ^ 20) = none :=
  ⟨calculateFillAmount_denominator_safety.1 (50 * 10 ^ 18) (by decide) (by decide),
   calculateFillAmount_denominator_safety.2.1 10 10000000 (50 * 10 ^ 18)
     (by decide) (by decide) (by decide),
   calculateFillAmount_denominator_safety.2.2 10⟩

/-- C10 (confirmed): groupOrdersByOutcome puts an order under key 2 exactly
when its maker bets outcome one and under key 1 exactly when not (the taker
perspective, opposite to the maker side); the two groups partition the input
(each order occurrence lands in exactly one group); and formatOrderForTaker
labels the outcome the same way. -/
theorem grouping_partitions_by_taker_outcome :
    ∀ (orders : List FetchedOrder) (o : FetchedOrder),
      (o ∈ (groupOrdersByOutcome orders).2 ↔
        o ∈ orders ∧ o.isMakerBettingOutcomeOne = true) ∧
      (o ∈ (groupOrdersByOutcome orders).1 ↔
        o ∈ orders ∧ o.isMakerBettingOutcomeOne = false) ∧
      (groupOrdersByOutcome orders).1.count o + (groupOrdersByOutcome orders).2.count o =
        orders.count o ∧
      (formatOrderForTaker o).outcome = if o.isMakerBettingOutcomeOne then 2 else 1 := by
  intro orders o
  rw [groupOrdersByOutcome_eq]
  refine ⟨by simp [List.mem_filter], by simp [List.mem_filter], ?_, rfl⟩
  by_cases h : o.isMakerBettingOutcomeOne
  · have h0 : (orders.filter (fun x => !x.isMakerBettingOutcomeOne)).count o = 0 := by
      rw [List.count_eq_zero]
      simp [List.mem_filter, h]
    rw [h0, List.count_filter (by simp [h])]
    omega
  · have h0 : (orders.filter (fun x => x.isMakerBettingOutcomeOne)).count o = 0 := by
      rw [List.count_eq_zero]
      simp [List.mem_filter, h]
    rw [h0, List.count_filter (by simp [h])]
    omega

end SXBet
